import Mathlib

/-!
Verification of the four boto3 manager command-line utilities
(`dynamo_manager.py`, `s3_manager.py`, `sns_manager.py`, `cwlogs_manager.py`).

Each utility is a thin wrapper over a remote cloud API.  The embedding models
the remote service as an explicit environment value (the remote state together
with per-call failure switches), and models each operation as a pure function
that returns its result, the updated remote state, and the list of remote
calls (and log lines) it issued, in order.  A Python function that can let a
provider exception (`botocore.exceptions.ClientError`) escape is embedded with
an `Except String` result; a function that cannot raise is embedded with a
plain result type.
-/

set_option autoImplicit false
set_option linter.unusedVariables false

/-- Python truthiness for an optional string argument: `if x:` is true exactly
when `x` is neither `None` nor the empty string.  Returns the value when
truthy, `none` otherwise.  Used to embed idioms such as
`params = {'NextToken': next_token} if next_token else {}` and
`region or 'us-east-2'`. -/
def truthyStr (x : Option String) : Option String :=
  match x with
  | some s => if s = "" then none else some s
  | none => none

namespace DynamoManager

/-- The required key list of `parse_tabledef` (`dynamo_manager.py`, lines
11-15). -/
def require_keys : List String :=
  ["table_name", "pk", "pkdef"]

/-- Embedding of `parse_tabledef` (`dynamo_manager.py`, lines 10-21).
The argument `conf` is the JSON object already read from the definition file,
represented as its ordered key-value pairs: Python's `json.loads` produces a
`dict`, and `list(conf.keys())` lists its keys in insertion order, i.e. in the
order the keys appear in the file.  File IO and JSON decoding themselves are
not modelled.  The values are opaque (type parameter `α`): the function never
inspects them.  The source compares `require_keys == list(conf.keys())` and
returns `conf` itself on success, raising `KeyError('Invalid configuration.')`
otherwise; the embedding returns `Except.error` for the raise. -/
def parse_tabledef {α : Type} (conf : List (String × α)) :
    Except String (List (String × α)) :=
  if require_keys = conf.map Prod.fst then
    Except.ok conf
  else
    Except.error "Invalid configuration."

/-- A concrete parsed table-definition object whose key set is exactly
`{table_name, pk, pkdef}` but whose keys appear in the order
`pk, table_name, pkdef`. -/
def confSwapped : List (String × String) :=
  [("pk", "A"), ("table_name", "B"), ("pkdef", "C")]

/-- A concrete parsed table-definition object with the keys in the source's
required order. -/
def confGood : List (String × String) :=
  [("table_name", "t1"), ("pk", "P"), ("pkdef", "D")]

end DynamoManager

namespace S3Manager

/-- An S3 bucket handle (`boto3` `Bucket` resource), identified by its name. -/
structure Bucket where
  name : String
  deriving DecidableEq, Repr

/-- The remote object-storage environment: the set of existing bucket names,
the object versions each bucket holds (as `(object_key, version_id)` pairs),
and per-call switches saying whether a given remote call raises a
`ClientError`. -/
structure S3Store where
  buckets : List String
  versions : String → List (String × String)
  createErr : String → Bool
  deleteBucketErr : String → Bool
  deleteObjectsErr : String → Bool
  uploadErr : Bool
  downloadErr : Bool
  versioningErr : Bool
  listErr : Bool

/-- One remote call or log line issued by the object-storage operations. -/
inductive S3Event where
  | fetchBucket (name : String)
  | createCall (name : String) (region : String)
  | listBucketsCall
  | uploadCall (bucket : String) (dest : String)
  | downloadCall (bucket : String) (key : String) (version : Option String)
  | versioningCall (bucket : String)
  | deleteObjectsCall (bucket : String) (targets : List (String × String))
  | deleteBucketCall (name : String)
  | waitNotExists (name : String)
  | logError (name : String)
  | logWarn (name : String)
  deriving DecidableEq, Repr

/-- Embedding of `create_bucket` (`s3_manager.py`, lines 21-36).
`region = region or 'us-east-2'` is Python truthiness on the optional region.
The remote `client.create_bucket(**params)` call either succeeds (the bucket
now exists) or raises `ClientError`, which the source catches, logs with
`log.error`, and converts to `False`.  This is the only object-storage
operation that catches a provider error around its own remote call. -/
def create_bucket (name : String) (region : Option String) (st : S3Store) :
    Bool × S3Store × List S3Event :=
  let region := (truthyStr region).getD "us-east-2"
  if st.createErr name then
    (false, st, [S3Event.createCall name region, S3Event.logError name])
  else
    (true, { st with buckets := st.buckets ++ [name] },
      [S3Event.createCall name region])

/-- Embedding of `list_buckets` (`s3_manager.py`, lines 38-45): iterates the
account's buckets, printing each name, and prints the count.  The result is
the printed count; the enumeration is a remote call that may raise, and the
source has no handler, so the error propagates. -/
def list_buckets (st : S3Store) :
    Except String Nat × S3Store × List S3Event :=
  if st.listErr then
    (Except.error "ClientError", st, [S3Event.listBucketsCall])
  else
    (Except.ok st.buckets.length, st, [S3Event.listBucketsCall])

/-- Embedding of `get_bucket` (`s3_manager.py`, lines 47-58).
`client.Bucket(name=name)` plus the `bucket.creation_date` read is one fetch
of the bucket; the date is truthy exactly when the bucket exists.  When the
bucket is absent and `create` is set, the source calls
`create_bucket(name, region=region)` and then recurses as `get_bucket(name)` —
with `create` at its default `False` — so the recursion is at most one level
deep.  When the bucket is absent and `create` is not set, it logs a warning
(`log.warning`) and returns `None`. -/
def get_bucket (name : String) (create : Bool) (region : Option String)
    (st : S3Store) : Option Bucket × S3Store × List S3Event :=
  if name ∈ st.buckets then
    (some ⟨name⟩, st, [S3Event.fetchBucket name])
  else
    match create with
    | true =>
      let p := create_bucket name region st
      let q := get_bucket name false none p.2.1
      (q.1, q.2.1, S3Event.fetchBucket name :: (p.2.2 ++ q.2.2))
    | false =>
      (none, st, [S3Event.fetchBucket name, S3Event.logWarn name])
termination_by create.toNat

/-- Embedding of `create_bucket_object` (`s3_manager.py`, lines 67-82).
Fetches the bucket with `get_bucket(bucket_name)` (no create flag); the
destination key is `f'{key_prefix or ""}{file_path}'` (Python truthiness on
the optional prefix); then `upload_file` is a remote call with no handler, so
a provider error propagates.  When the bucket does not exist, `get_bucket`
returned `None` and `bucket.Object(dest)` raises an `AttributeError`, which
also propagates.  The result is the destination key of the created object. -/
def create_bucket_object (bucket_name : String) (file_path : String)
    (key_pfx : Option String) (st : S3Store) :
    Except String String × S3Store × List S3Event :=
  let r := get_bucket bucket_name false none st
  match r.1 with
  | none => (Except.error "AttributeError", r.2.1, r.2.2)
  | some _ =>
    let dest := (truthyStr key_pfx).getD "" ++ file_path
    if st.uploadErr then
      (Except.error "ClientError", r.2.1,
        r.2.2 ++ [S3Event.uploadCall bucket_name dest])
    else
      (Except.ok dest, r.2.1, r.2.2 ++ [S3Event.uploadCall bucket_name dest])

/-- The basename of a POSIX path: `PosixPath(object_key).name`. -/
def posixName (s : String) : String :=
  (s.splitOn "/").getLastD ""

/-- `Path(f'{dest or ""}').joinpath(name)`: the optional destination directory
joined with the file name (truthiness on `dest`). -/
def pathJoin (dest : Option String) (name : String) : String :=
  match truthyStr dest with
  | some d => d ++ "/" ++ name
  | none => name

/-- Embedding of `get_bucket_object` (`s3_manager.py`, lines 84-104).
Fetches the bucket with `get_bucket(bucket_name)`; builds the local file path
from the optional destination directory and the basename of the object key;
`download_file` is a remote call with no handler, so a provider error
propagates, as does the `AttributeError` when the bucket does not exist.
The result is the `(object_key, local_file_path)` pair the source returns. -/
def get_bucket_object (bucket_name : String) (object_key : String)
    (dest : Option String) (version_id : Option String) (st : S3Store) :
    Except String (String × String) × S3Store × List S3Event :=
  let r := get_bucket bucket_name false none st
  match r.1 with
  | none => (Except.error "AttributeError", r.2.1, r.2.2)
  | some _ =>
    let file_path := pathJoin dest (posixName object_key)
    if st.downloadErr then
      (Except.error "ClientError", r.2.1,
        r.2.2 ++ [S3Event.downloadCall bucket_name object_key
          (truthyStr version_id)])
    else
      (Except.ok (object_key, file_path), r.2.1,
        r.2.2 ++ [S3Event.downloadCall bucket_name object_key
          (truthyStr version_id)])

/-- Embedding of `enable_bucket_versioning` (`s3_manager.py`, lines 106-112).
Fetches the bucket and calls `versioned.enable()` — a remote call with no
handler — then returns `versioned.status`. -/
def enable_bucket_versioning (bucket_name : String) (st : S3Store) :
    Except String String × S3Store × List S3Event :=
  let r := get_bucket bucket_name false none st
  match r.1 with
  | none => (Except.error "AttributeError", r.2.1, r.2.2)
  | some _ =>
    if st.versioningErr then
      (Except.error "ClientError", r.2.1,
        r.2.2 ++ [S3Event.versioningCall bucket_name])
    else
      (Except.ok "Enabled", r.2.1,
        r.2.2 ++ [S3Event.versioningCall bucket_name])

/-- Whether the string `p` is a prefix of the string `s`, computed on the
character lists. -/
def strHasPfx (s : String) (p : String) : Bool :=
  p.data.isPrefixOf s.data

/-- The object versions enumerated by `delete_bucket_objects`: the bucket's
`object_versions`, filtered remote-side by `Prefix=key_prefix` when the prefix
is truthy (`if key_prefix:`), the full `iterator()` otherwise. -/
def matchingVersions (vers : List (String × String)) (key_pfx : Option String) :
    List (String × String) :=
  match truthyStr key_pfx with
  | some p => vers.filter (fun kv => strHasPfx kv.1 p)
  | none => vers

/-- Embedding of `delete_bucket_objects` (`s3_manager.py`, lines 114-135).
Fetches the bucket, accumulates every enumerated `(Key, VersionId)` pair into
`targets`, then issues a single `bucket.delete_objects` call carrying the
whole target list and returns `len(targets)`.  The source has no handler:
a provider error from the batched delete propagates, and when the bucket does
not exist, `bucket.object_versions` raises an `AttributeError`. -/
def delete_bucket_objects (bucket_name : String) (key_pfx : Option String)
    (st : S3Store) : Except String Nat × S3Store × List S3Event :=
  let r := get_bucket bucket_name false none st
  match r.1 with
  | none => (Except.error "AttributeError", r.2.1, r.2.2)
  | some _ =>
    let targets := matchingVersions (r.2.1.versions bucket_name) key_pfx
    if r.2.1.deleteObjectsErr bucket_name then
      (Except.error "ClientError", r.2.1,
        r.2.2 ++ [S3Event.deleteObjectsCall bucket_name targets])
    else
      (Except.ok targets.length,
        { r.2.1 with versions := fun b =>
            if b = bucket_name then
              (r.2.1.versions b).filter (fun kv => kv ∉ targets)
            else r.2.1.versions b },
        r.2.2 ++ [S3Event.deleteObjectsCall bucket_name targets])

/-- The `for bucket in client.buckets.iterator():` loop of `delete_buckets`
(`s3_manager.py`, lines 146-154), iterating over a snapshot of the account's
bucket names.  Each iteration tries `bucket.delete()` followed by
`bucket.wait_until_not_exists()` and increments the count; a `ClientError` is
caught and logged with `log.warning`, and the loop continues. -/
def deleteLoop : List String → S3Store → Nat × S3Store × List S3Event
  | [], st => (0, st, [])
  | bn :: rest, st =>
    if st.deleteBucketErr bn then
      let r := deleteLoop rest st
      (r.1, r.2.1,
        S3Event.deleteBucketCall bn :: S3Event.logWarn bn :: r.2.2)
    else
      let st1 := { st with buckets := st.buckets.erase bn }
      let r := deleteLoop rest st1
      (r.1 + 1, r.2.1,
        S3Event.deleteBucketCall bn :: S3Event.waitNotExists bn :: r.2.2)

/-- Embedding of `delete_buckets` (`s3_manager.py`, lines 137-155).
`if name:` is Python truthiness.  With a truthy name, the named bucket is
fetched and, when it exists, deleted and waited on — with no handler, so a
provider error propagates — and the count is 1 (0 when the bucket does not
exist).  With no truthy name, every bucket in the account is attempted in the
best-effort loop `deleteLoop`, and the count of successful deletions is
returned. -/
def delete_buckets (name : Option String) (st : S3Store) :
    Except String Nat × S3Store × List S3Event :=
  match truthyStr name with
  | some n =>
    let r := get_bucket n false none st
    match r.1 with
    | some _ =>
      if r.2.1.deleteBucketErr n then
        (Except.error "ClientError", r.2.1,
          r.2.2 ++ [S3Event.deleteBucketCall n])
      else
        (Except.ok 1, { r.2.1 with buckets := r.2.1.buckets.erase n },
          r.2.2 ++ [S3Event.deleteBucketCall n, S3Event.waitNotExists n])
    | none => (Except.ok 0, r.2.1, r.2.2)
  | none =>
    let r := deleteLoop st.buckets st
    (Except.ok r.1, r.2.1, r.2.2)

/-- The bucket name carried by a `deleteBucketCall` event, `none` for every
other event.  Used to read the sequence of per-bucket delete attempts off a
trace. -/
def deleteCallName : S3Event → Option String
  | S3Event.deleteBucketCall n => some n
  | _ => none

/-- Recognizer for `createCall` events. -/
def isCreateCall : S3Event → Bool
  | S3Event.createCall _ _ => true
  | _ => false

/-- Recognizer for `fetchBucket` events. -/
def isFetchBucket : S3Event → Bool
  | S3Event.fetchBucket _ => true
  | _ => false

/-- Recognizer for `deleteObjectsCall` events. -/
def isDeleteObjectsCall : S3Event → Bool
  | S3Event.deleteObjectsCall _ _ => true
  | _ => false

end S3Manager

namespace SnsManager

/-- The raw response of the remote `list_topics` call, as the subset of the
response `dict` the source reads: the `Topics` and `NextToken` keys, each of
which may be absent. -/
structure TopicsResponse where
  Topics : Option (List String)
  NextToken : Option String
  deriving DecidableEq, Repr

/-- The raw response of the remote `list_subscriptions` call: the
`Subscriptions` and `NextToken` keys, each of which may be absent. -/
structure SubsResponse where
  Subscriptions : Option (List String)
  NextToken : Option String
  deriving DecidableEq, Repr

/-- The remote notification-service environment: the response each list call
returns, as a function of the pagination parameter actually sent (`none` when
no `NextToken` parameter was in `params`). -/
structure SnsEnv where
  listTopicsResp : Option String → TopicsResponse
  listSubsResp : Option String → SubsResponse

/-- One remote call issued by the notification-service list operations,
recording the pagination parameter sent (`none` = the `params` dict carried
no `NextToken` key). -/
inductive SnsEvent where
  | listTopicsCall (nextToken : Option String)
  | listSubsCall (nextToken : Option String)
  deriving DecidableEq, Repr

/-- Embedding of `list_sns_topics` (`sns_manager.py`, lines 19-23).
`params = {'NextToken': next_token} if next_token else {}` sends the token as
the pagination parameter exactly when it is truthy (non-`None` and
non-empty).  The result is
`(topics.get('Topics', []), topics.get('NextToken', None))`. -/
def list_sns_topics (next_token : Option String) (env : SnsEnv) :
    (List String × Option String) × List SnsEvent :=
  let sent := truthyStr next_token
  let resp := env.listTopicsResp sent
  ((resp.Topics.getD [], resp.NextToken), [SnsEvent.listTopicsCall sent])

/-- Embedding of `list_sns_subscriptions` (`sns_manager.py`, lines 25-29):
same shape as `list_sns_topics`, reading `Subscriptions` instead of
`Topics`. -/
def list_sns_subscriptions (next_token : Option String) (env : SnsEnv) :
    (List String × Option String) × List SnsEvent :=
  let sent := truthyStr next_token
  let resp := env.listSubsResp sent
  ((resp.Subscriptions.getD [], resp.NextToken), [SnsEvent.listSubsCall sent])

/-- A concrete notification-service environment used at concrete inputs. -/
def snsEnv0 : SnsEnv where
  listTopicsResp := fun t =>
    match t with
    | some _ => ⟨some ["arnA"], some "tok2"⟩
    | none => ⟨some ["arn1", "arn2"], some "tok1"⟩
  listSubsResp := fun t =>
    match t with
    | some _ => ⟨some ["subB"], none⟩
    | none => ⟨some ["sub1"], some "stok"⟩

/-- A concrete environment whose responses carry neither a `Topics` /
`Subscriptions` key nor a `NextToken` key. -/
def snsEnvBare : SnsEnv where
  listTopicsResp := fun _ => ⟨none, none⟩
  listSubsResp := fun _ => ⟨none, none⟩

end SnsManager

namespace CwLogsManager

/-- The raw response of `describe_log_groups`, restricted to the key the
source reads.  The source indexes `res['logGroups']` directly, so the key is
modelled as optional and its absence as a `KeyError`. -/
structure LogGroupsResponse where
  logGroups : Option (List String)
  deriving DecidableEq, Repr

/-- The raw response of `describe_log_streams` (`res['logStreams']`). -/
structure LogStreamsResponse where
  logStreams : Option (List String)
  deriving DecidableEq, Repr

/-- The raw response of the remote `filter_log_events` call
(`res['events']`). -/
structure EventsResponse where
  events : Option (List String)
  deriving DecidableEq, Repr

/-- The remote log-storage environment: the response of each call as a
function of the parameters actually sent. -/
structure CwEnv where
  describeLogGroups : Option String → LogGroupsResponse
  describeLogStreams : Option String → Option String → LogStreamsResponse
  filterEvents : String → String → Option Int → Option Int → EventsResponse

/-- One remote call issued by the log-storage operations, recording the
parameters sent. -/
inductive CwEvent where
  | describeLogGroupsCall (groupPfx : Option String)
  | describeLogStreamsCall (group : Option String) (streamPfx : Option String)
  | filterEventsCall (group : String) (pat : String)
      (start : Option Int) (stop : Option Int)
  deriving DecidableEq, Repr

/-- Embedding of `list_log_groups` (`cwlogs_manager.py`, lines 13-19).
`params = {'logGroupNamePrefix': group_name} if group_name else {}` is Python
truthiness; the single `describe_log_groups` call's response is indexed as
`res['logGroups']`, so a response without that key raises `KeyError`.  The
region only selects the client and is not a remote parameter of the call. -/
def list_log_groups (group_name : Option String) (region_name : Option String)
    (env : CwEnv) : Except String (List String) × List CwEvent :=
  let sent := truthyStr group_name
  let resp := env.describeLogGroups sent
  (match resp.logGroups with
   | some gs => Except.ok gs
   | none => Except.error "KeyError",
   [CwEvent.describeLogGroupsCall sent])

/-- Embedding of `list_log_group_streams` (`cwlogs_manager.py`, lines 21-29).
`params = {'logGroupName': group_name} if group_name else {}` is truthiness on
the required group name; a truthy `stream_name` adds `logStreamNamePrefix`.
One `describe_log_streams` call; the response is indexed as
`res['logStreams']`. -/
def list_log_group_streams (group_name : String) (stream_name : Option String)
    (region_name : Option String) (env : CwEnv) :
    Except String (List String) × List CwEvent :=
  let sentGroup := truthyStr (some group_name)
  let sentStream := truthyStr stream_name
  let resp := env.describeLogStreams sentGroup sentStream
  (match resp.logStreams with
   | some ss => Except.ok ss
   | none => Except.error "KeyError",
   [CwEvent.describeLogStreamsCall sentGroup sentStream])

/-- Python truthiness for an optional integer timestamp: `if start:` is false
for `None` and for `0`. -/
def truthyInt (x : Option Int) : Option Int :=
  match x with
  | some v => if v = 0 then none else some v
  | none => none

/-- Embedding of `filter_log_events` (`cwlogs_manager.py`, lines 31-46).
`logGroupName` and `filterPattern` are always sent; `startTime` / `endTime`
are added only when `start` / `stop` are truthy.  One remote
`filter_log_events` call; the response is indexed as `res['events']`. -/
def filter_log_events (group_name : String) (filter_pat : String)
    (start : Option Int) (stop : Option Int) (region_name : Option String)
    (env : CwEnv) : Except String (List String) × List CwEvent :=
  let sentStart := truthyInt start
  let sentStop := truthyInt stop
  let resp := env.filterEvents group_name filter_pat sentStart sentStop
  (match resp.events with
   | some es => Except.ok es
   | none => Except.error "KeyError",
   [CwEvent.filterEventsCall group_name filter_pat sentStart sentStop])

/-- A concrete log-storage environment used at concrete inputs. -/
def cwEnv0 : CwEnv where
  describeLogGroups := fun _ => ⟨some ["g1", "g2"]⟩
  describeLogStreams := fun _ _ => ⟨some ["s1"]⟩
  filterEvents := fun _ _ _ _ => ⟨some ["e1", "e2", "e3"]⟩

end CwLogsManager

namespace S3Manager

/-- A remote store with no buckets and no failing calls. -/
def s3Store0 : S3Store where
  buckets := []
  versions := fun _ => []
  createErr := fun _ => false
  deleteBucketErr := fun _ => false
  deleteObjectsErr := fun _ => false
  uploadErr := false
  downloadErr := false
  versioningErr := false
  listErr := false

/-- A store holding one bucket `b1` with three object versions, two of them
under the key prefix `logs/`. -/
def s3StoreB1 : S3Store :=
  { s3Store0 with
    buckets := ["b1"]
    versions := fun b =>
      if b = "b1" then
        [("logs/a.txt", "v1"), ("logs/a.txt", "v2"), ("data/b.txt", "v1")]
      else [] }

/-- A store with no buckets in which every `create_bucket` call raises a
`ClientError`. -/
def s3StoreCreateErr : S3Store :=
  { s3Store0 with createErr := fun _ => true }

/-- A store holding buckets `b1`, `b2`, `b3` in which deleting `b2` raises a
`ClientError` and the other deletions succeed. -/
def s3StoreLoopErr : S3Store :=
  { s3Store0 with
    buckets := ["b1", "b2", "b3"]
    deleteBucketErr := fun b => b = "b2" }

/-- A store holding one bucket `b1` whose deletion raises a `ClientError`. -/
def s3StoreDelErr : S3Store :=
  { s3Store0 with
    buckets := ["b1"]
    deleteBucketErr := fun _ => true }

/-- A store holding one bucket `b1` in which every remote call raises a
`ClientError`. -/
def s3StoreAllErr : S3Store where
  buckets := ["b1"]
  versions := fun _ => [("k", "v")]
  createErr := fun _ => true
  deleteBucketErr := fun _ => true
  deleteObjectsErr := fun _ => true
  uploadErr := true
  downloadErr := true
  versioningErr := true
  listErr := true

end S3Manager

namespace S3Manager

theorem get_bucket_mem (name : String) (create : Bool) (region : Option String)
    (st : S3Store) (h : name ∈ st.buckets) :
    get_bucket name create region st =
      (some ⟨name⟩, st, [S3Event.fetchBucket name]) := by
  unfold get_bucket
  simp [h]

theorem get_bucket_notmem_nocreate (name : String) (region : Option String)
    (st : S3Store) (h : name ∉ st.buckets) :
    get_bucket name false region st =
      (none, st, [S3Event.fetchBucket name, S3Event.logWarn name]) := by
  unfold get_bucket
  simp [h]

theorem get_bucket_create_ok (name : String) (region : Option String)
    (st : S3Store) (h : name ∉ st.buckets)
    (herr : st.createErr name = false) :
    get_bucket name true region st =
      (some ⟨name⟩, { st with buckets := st.buckets ++ [name] },
        [S3Event.fetchBucket name,
         S3Event.createCall name ((truthyStr region).getD "us-east-2"),
         S3Event.fetchBucket name]) := by
  have h1 := get_bucket_mem name false none
    { st with buckets := st.buckets ++ [name] } (by simp)
  unfold get_bucket
  simp [h, create_bucket, herr, h1]

theorem get_bucket_create_err (name : String) (region : Option String)
    (st : S3Store) (h : name ∉ st.buckets)
    (herr : st.createErr name = true) :
    get_bucket name true region st =
      (none, st,
        [S3Event.fetchBucket name,
         S3Event.createCall name ((truthyStr region).getD "us-east-2"),
         S3Event.logError name,
         S3Event.fetchBucket name, S3Event.logWarn name]) := by
  have h1 := get_bucket_notmem_nocreate name none st h
  unfold get_bucket
  simp [h, create_bucket, herr, h1]

end S3Manager

theorem S3Manager.deleteLoop_spec (bs : List String) (st : S3Manager.S3Store) :
    (S3Manager.deleteLoop bs st).1 =
      (bs.filter (fun b => !st.deleteBucketErr b)).length ∧
    (S3Manager.deleteLoop bs st).2.2.filterMap S3Manager.deleteCallName = bs ∧
    ∀ b ∈ bs, st.deleteBucketErr b = true →
      S3Manager.S3Event.logWarn b ∈ (S3Manager.deleteLoop bs st).2.2 := by
  induction bs generalizing st with
  | nil => simp [S3Manager.deleteLoop]
  | cons bn rest ih =>
    by_cases hbn : st.deleteBucketErr bn
    · obtain ⟨ih1, ih2, ih3⟩ := ih st
      refine ⟨?_, ?_, ?_⟩
      · simp [S3Manager.deleteLoop, hbn, ih1]
      · simp [S3Manager.deleteLoop, hbn, S3Manager.deleteCallName, ih2]
      · intro b hb hberr
        rcases List.mem_cons.mp hb with rfl | hb'
        · simp [S3Manager.deleteLoop, hbn]
        · have hm := ih3 b hb' hberr
          simp [S3Manager.deleteLoop, hbn, hm]
    · obtain ⟨ih1, ih2, ih3⟩ := ih { st with buckets := st.buckets.erase bn }
      refine ⟨?_, ?_, ?_⟩
      · simp [S3Manager.deleteLoop, hbn, ih1]
      · simp [S3Manager.deleteLoop, hbn, S3Manager.deleteCallName, ih2]
      · intro b hb hberr
        rcases List.mem_cons.mp hb with rfl | hb'
        · exact absurd hberr (by simp [hbn])
        · have hm := ih3 b hb' hberr
          simp [S3Manager.deleteLoop, hbn, hm]

/-- C1, counterexample.  `confSwapped` is a table-definition object whose key
set is exactly `{table_name, pk, pkdef}` (a duplicate-free permutation of the
required keys), yet `parse_tabledef` rejects it with the configuration
`KeyError`, because the source compares the key *list* — which preserves the
file's key order — against `require_keys` with strict list equality. -/
theorem DynamoManager.parse_tabledef_unordered_keys_rejected :
    (DynamoManager.confSwapped.map Prod.fst).Perm DynamoManager.require_keys ∧
    (DynamoManager.confSwapped.map Prod.fst).Nodup ∧
    DynamoManager.parse_tabledef DynamoManager.confSwapped =
      Except.error "Invalid configuration." := by
  refine ⟨by decide, by decide, rfl⟩

/-- C1, amended.  `parse_tabledef` succeeds — returning the parsed object and
its three values unchanged — exactly when the file's key list is
`[table_name, pk, pkdef]` in that exact order; any other key list (a missing
key, an additional key, or the same three keys in a different order) fails
with the configuration `KeyError`. -/
theorem DynamoManager.parse_tabledef_exact_key_order {α : Type}
    (conf : List (String × α)) :
    (DynamoManager.parse_tabledef conf = Except.ok conf ↔
      conf.map Prod.fst = DynamoManager.require_keys) ∧
    (conf.map Prod.fst ≠ DynamoManager.require_keys →
      DynamoManager.parse_tabledef conf =
        Except.error "Invalid configuration.") := by
  unfold DynamoManager.parse_tabledef
  by_cases h : DynamoManager.require_keys = conf.map Prod.fst
  · simp [h]
  · simp [h, Ne.symm h]

/-- C1, witness: a file with the keys in the required order parses to itself,
and the swapped-order file is rejected, by the amended theorem. -/
theorem DynamoManager.parse_tabledef_exact_key_order_witness :
    DynamoManager.parse_tabledef DynamoManager.confGood =
      Except.ok DynamoManager.confGood ∧
    DynamoManager.parse_tabledef DynamoManager.confSwapped =
      Except.error "Invalid configuration." :=
  ⟨(DynamoManager.parse_tabledef_exact_key_order DynamoManager.confGood).1.mpr
      (by decide),
   (DynamoManager.parse_tabledef_exact_key_order DynamoManager.confSwapped).2
      (by decide)⟩

/-- C2.  For every bucket name absent from the remote store, when the remote
create call succeeds, `get_bucket(name, create=True)` issues exactly one
create call followed by exactly one re-fetch of the bucket (the full trace is
the initial fetch, the single create call, then the single re-fetch), and
returns a bucket handle whose name equals the given name. -/
theorem S3Manager.get_bucket_create_missing (name : String)
    (region : Option String) (st : S3Manager.S3Store)
    (hmem : name ∉ st.buckets) (hok : st.createErr name = false) :
    (S3Manager.get_bucket name true region st).1 = some ⟨name⟩ ∧
    (S3Manager.get_bucket name true region st).2.2 =
      [S3Manager.S3Event.fetchBucket name,
       S3Manager.S3Event.createCall name ((truthyStr region).getD "us-east-2"),
       S3Manager.S3Event.fetchBucket name] ∧
    ((S3Manager.get_bucket name true region st).2.2.filter
      S3Manager.isCreateCall).length = 1 := by
  rw [S3Manager.get_bucket_create_ok name region st hmem hok]
  refine ⟨rfl, rfl, ?_⟩
  simp [S3Manager.isCreateCall]

/-- C2, witness: creating-and-fetching the absent bucket `b` in the store
with no buckets and no failing calls. -/
theorem S3Manager.get_bucket_create_missing_witness :
    ("b" ∉ S3Manager.s3Store0.buckets) ∧
    (S3Manager.s3Store0.createErr "b" = false) ∧
    (S3Manager.get_bucket "b" true none S3Manager.s3Store0).1 = some ⟨"b"⟩ ∧
    (S3Manager.get_bucket "b" true none S3Manager.s3Store0).2.2 =
      [S3Manager.S3Event.fetchBucket "b",
       S3Manager.S3Event.createCall "b" "us-east-2",
       S3Manager.S3Event.fetchBucket "b"] := by
  have h := S3Manager.get_bucket_create_missing "b" none S3Manager.s3Store0
    (by decide) rfl
  exact ⟨by decide, rfl, h.1, h.2.1⟩

/-- C8.  For every bucket name absent from the remote store, `get_bucket`
with no create flag logs a warning and returns `None`; its return type is a
plain `Option` result (no exception component), so no typed error is
raised. -/
theorem S3Manager.get_bucket_missing_no_create (name : String)
    (region : Option String) (st : S3Manager.S3Store)
    (hmem : name ∉ st.buckets) :
    (S3Manager.get_bucket name false region st).1 = none ∧
    (S3Manager.get_bucket name false region st).2.2 =
      [S3Manager.S3Event.fetchBucket name, S3Manager.S3Event.logWarn name] := by
  rw [S3Manager.get_bucket_notmem_nocreate name region st hmem]
  exact ⟨rfl, rfl⟩

/-- C8, witness: fetching the absent bucket `b` with no create flag. -/
theorem S3Manager.get_bucket_missing_no_create_witness :
    ("b" ∉ S3Manager.s3Store0.buckets) ∧
    (S3Manager.get_bucket "b" false none S3Manager.s3Store0).1 = none ∧
    (S3Manager.get_bucket "b" false none S3Manager.s3Store0).2.2 =
      [S3Manager.S3Event.fetchBucket "b", S3Manager.S3Event.logWarn "b"] := by
  have h := S3Manager.get_bucket_missing_no_create "b" none S3Manager.s3Store0
    (by decide)
  exact ⟨by decide, h.1, h.2⟩

/-- C9.  The recursion in `get_bucket` is bounded at depth two for every
input: every trace holds at most two fetches and at most one create call
(the re-fetch after creation passes `create` at its default `False`, so the
recursive call can never create again), and when the bucket still does not
exist after a failing create attempt the re-fetch returns `None` instead of
recursing further.  `get_bucket` is a total function of the embedding, so it
terminates on every input. -/
theorem S3Manager.get_bucket_depth_two (name : String) (create : Bool)
    (region : Option String) (st : S3Manager.S3Store) :
    ((S3Manager.get_bucket name create region st).2.2.filter
      S3Manager.isFetchBucket).length ≤ 2 ∧
    ((S3Manager.get_bucket name create region st).2.2.filter
      S3Manager.isCreateCall).length ≤ 1 ∧
    (name ∉ st.buckets → st.createErr name = true →
      (S3Manager.get_bucket name true region st).1 = none ∧
      ((S3Manager.get_bucket name true region st).2.2.filter
        S3Manager.isCreateCall).length = 1) := by
  refine ⟨?_, ?_, ?_⟩
  · by_cases hmem : name ∈ st.buckets
    · rw [S3Manager.get_bucket_mem name create region st hmem]
      simp [S3Manager.isFetchBucket]
    · cases create with
      | false =>
        rw [S3Manager.get_bucket_notmem_nocreate name region st hmem]
        simp [S3Manager.isFetchBucket]
      | true =>
        by_cases herr : st.createErr name = true
        · rw [S3Manager.get_bucket_create_err name region st hmem herr]
          simp [S3Manager.isFetchBucket]
        · rw [S3Manager.get_bucket_create_ok name region st hmem
            (by simpa using herr)]
          simp [S3Manager.isFetchBucket]
  · by_cases hmem : name ∈ st.buckets
    · rw [S3Manager.get_bucket_mem name create region st hmem]
      simp [S3Manager.isCreateCall]
    · cases create with
      | false =>
        rw [S3Manager.get_bucket_notmem_nocreate name region st hmem]
        simp [S3Manager.isCreateCall]
      | true =>
        by_cases herr : st.createErr name = true
        · rw [S3Manager.get_bucket_create_err name region st hmem herr]
          simp [S3Manager.isCreateCall]
        · rw [S3Manager.get_bucket_create_ok name region st hmem
            (by simpa using herr)]
          simp [S3Manager.isCreateCall]
  · intro hmem herr
    rw [S3Manager.get_bucket_create_err name region st hmem herr]
    exact ⟨rfl, by simp [S3Manager.isCreateCall]⟩

/-- C9, witness: getting the absent bucket `b` with the create flag in a
store whose create call always fails — one create call, two fetches, `None`
returned. -/
theorem S3Manager.get_bucket_depth_two_witness :
    ((S3Manager.get_bucket "b" true none S3Manager.s3StoreCreateErr).2.2.filter
      S3Manager.isFetchBucket).length ≤ 2 ∧
    (S3Manager.get_bucket "b" true none S3Manager.s3StoreCreateErr).1 = none ∧
    ((S3Manager.get_bucket "b" true none S3Manager.s3StoreCreateErr).2.2.filter
      S3Manager.isCreateCall).length = 1 := by
  have h := S3Manager.get_bucket_depth_two "b" true none
    S3Manager.s3StoreCreateErr
  exact ⟨h.1, (h.2.2 (by decide) rfl).1, (h.2.2 (by decide) rfl).2⟩

/-- C3.  For every existing bucket whose matching object-versions (all of
them, or those under the supplied truthy key prefix) number `N ≤ 1000`, and
whose batched delete call succeeds, `delete_bucket_objects` issues exactly
one batched delete call whose target list is exactly the `N`
`(key, version-id)` pairs, and returns `N`. -/
theorem S3Manager.delete_bucket_objects_single_batch (bucket_name : String)
    (key_pfx : Option String) (st : S3Manager.S3Store)
    (hmem : bucket_name ∈ st.buckets)
    (herr : st.deleteObjectsErr bucket_name = false)
    (hcap : (S3Manager.matchingVersions (st.versions bucket_name)
      key_pfx).length ≤ 1000) :
    (S3Manager.delete_bucket_objects bucket_name key_pfx st).1 =
      Except.ok (S3Manager.matchingVersions (st.versions bucket_name)
        key_pfx).length ∧
    (S3Manager.delete_bucket_objects bucket_name key_pfx st).2.2.filter
      S3Manager.isDeleteObjectsCall =
      [S3Manager.S3Event.deleteObjectsCall bucket_name
        (S3Manager.matchingVersions (st.versions bucket_name) key_pfx)] := by
  have h1 := S3Manager.get_bucket_mem bucket_name false none st hmem
  unfold S3Manager.delete_bucket_objects
  rw [h1]
  simp [herr, S3Manager.isDeleteObjectsCall, S3Manager.isFetchBucket]

/-- C3, witness: the bucket `b1` with two object-versions under the prefix
`logs/` — one batched delete call listing both pairs, returning 2. -/
theorem S3Manager.delete_bucket_objects_single_batch_witness :
    (S3Manager.delete_bucket_objects "b1" (some "logs/")
      S3Manager.s3StoreB1).1 = Except.ok 2 ∧
    (S3Manager.delete_bucket_objects "b1" (some "logs/")
      S3Manager.s3StoreB1).2.2.filter S3Manager.isDeleteObjectsCall =
      [S3Manager.S3Event.deleteObjectsCall "b1"
        [("logs/a.txt", "v1"), ("logs/a.txt", "v2")]] := by
  have h := S3Manager.delete_bucket_objects_single_batch "b1" (some "logs/")
    S3Manager.s3StoreB1 (by decide) rfl (by decide)
  have hm : S3Manager.matchingVersions
      (S3Manager.s3StoreB1.versions "b1") (some "logs/") =
      [("logs/a.txt", "v1"), ("logs/a.txt", "v2")] := by decide
  exact ⟨by rw [h.1, hm]; rfl, by rw [h.2, hm]⟩

/-- C4.  `delete_buckets()` with no name attempts the deletion of every
bucket in the account (the trace carries one delete call per bucket, in
order); a per-bucket provider error is logged as a warning and never
surfaces (the operation always returns `Except.ok`), and the returned count
is the number of buckets whose deletion raised no error. -/
theorem S3Manager.delete_buckets_all_best_effort (st : S3Manager.S3Store) :
    (S3Manager.delete_buckets none st).1 =
      Except.ok ((st.buckets.filter (fun b => !st.deleteBucketErr b)).length) ∧
    (S3Manager.delete_buckets none st).2.2.filterMap
      S3Manager.deleteCallName = st.buckets ∧
    ∀ b ∈ st.buckets, st.deleteBucketErr b = true →
      S3Manager.S3Event.logWarn b ∈ (S3Manager.delete_buckets none st).2.2 := by
  have h := S3Manager.deleteLoop_spec st.buckets st
  exact ⟨by simp [S3Manager.delete_buckets, truthyStr, h.1],
         by simp [S3Manager.delete_buckets, truthyStr, h.2.1],
         fun b hb hberr => by
           simpa [S3Manager.delete_buckets, truthyStr] using h.2.2 b hb hberr⟩

/-- C4, witness: an account with buckets `b1`, `b2`, `b3` where deleting
`b2` raises — all three are attempted, the error for `b2` is logged, and the
count of error-free deletions, 2, is returned. -/
theorem S3Manager.delete_buckets_all_best_effort_witness :
    (S3Manager.delete_buckets none S3Manager.s3StoreLoopErr).1 =
      Except.ok 2 ∧
    (S3Manager.delete_buckets none S3Manager.s3StoreLoopErr).2.2.filterMap
      S3Manager.deleteCallName = ["b1", "b2", "b3"] ∧
    S3Manager.S3Event.logWarn "b2" ∈
      (S3Manager.delete_buckets none S3Manager.s3StoreLoopErr).2.2 := by
  have h := S3Manager.delete_buckets_all_best_effort S3Manager.s3StoreLoopErr
  refine ⟨?_, h.2.1, h.2.2 "b2" (by decide) (by decide)⟩
  have := h.1
  simpa [S3Manager.s3StoreLoopErr, S3Manager.s3Store0] using this

/-- C5, counterexample.  In a store with one bucket `b1` whose deletion
raises a provider error, `delete_buckets()` with no name — an object-storage
operation other than `create_bucket` — catches the error: the trace shows the
delete call and the logged warning, and the operation returns `Except.ok 0`
instead of propagating the exception.  So `create_bucket` is not the only
object-storage operation that catches a provider error. -/
theorem S3Manager.delete_buckets_loop_catches_error :
    (S3Manager.delete_buckets none S3Manager.s3StoreDelErr).1 =
      Except.ok 0 ∧
    (S3Manager.delete_buckets none S3Manager.s3StoreDelErr).2.2 =
      [S3Manager.S3Event.deleteBucketCall "b1",
       S3Manager.S3Event.logWarn "b1"] ∧
    ∀ e : String,
      (S3Manager.delete_buckets none S3Manager.s3StoreDelErr).1 ≠
        Except.error e :=
  ⟨rfl, rfl, fun _ h => Except.noConfusion h⟩

/-- C5, amended.  Among the object-storage operations, exactly two places
catch a provider error: `create_bucket` (which returns `True` when the remote
create call succeeds, and logs the error and returns `False` when it raises)
and the per-bucket loop of `delete_buckets` with no name (which logs each
failing bucket and always returns a count, never an error).  Every other
object-storage operation — `list_buckets`, `create_bucket_object`,
`get_bucket_object`, `enable_bucket_versioning`, `delete_bucket_objects`,
and `delete_buckets` with a name — lets a provider exception raised by the
remote call it issues propagate uncaught out of the operation. -/
theorem S3Manager.provider_error_policy :
    (∀ (name : String) (region : Option String) (st : S3Manager.S3Store),
      (S3Manager.create_bucket name region st).1 = !st.createErr name ∧
      (st.createErr name = true →
        S3Manager.S3Event.logError name ∈
          (S3Manager.create_bucket name region st).2.2)) ∧
    (∀ st : S3Manager.S3Store,
      ∃ k, (S3Manager.delete_buckets none st).1 = Except.ok k) ∧
    (∀ st : S3Manager.S3Store, st.listErr = true →
      (S3Manager.list_buckets st).1 = Except.error "ClientError") ∧
    (∀ (bn fp : String) (kp : Option String) (st : S3Manager.S3Store),
      bn ∈ st.buckets → st.uploadErr = true →
      (S3Manager.create_bucket_object bn fp kp st).1 =
        Except.error "ClientError") ∧
    (∀ (bn ok : String) (d v : Option String) (st : S3Manager.S3Store),
      bn ∈ st.buckets → st.downloadErr = true →
      (S3Manager.get_bucket_object bn ok d v st).1 =
        Except.error "ClientError") ∧
    (∀ (bn : String) (st : S3Manager.S3Store),
      bn ∈ st.buckets → st.versioningErr = true →
      (S3Manager.enable_bucket_versioning bn st).1 =
        Except.error "ClientError") ∧
    (∀ (bn : String) (kp : Option String) (st : S3Manager.S3Store),
      bn ∈ st.buckets → st.deleteObjectsErr bn = true →
      (S3Manager.delete_bucket_objects bn kp st).1 =
        Except.error "ClientError") ∧
    (∀ (n : String) (st : S3Manager.S3Store),
      n ≠ "" → n ∈ st.buckets → st.deleteBucketErr n = true →
      (S3Manager.delete_buckets (some n) st).1 =
        Except.error "ClientError") := by
  refine ⟨?_, ?_, ?_, ?_, ?_, ?_, ?_, ?_⟩
  · intro name region st
    by_cases h : st.createErr name
    · simp [S3Manager.create_bucket, h]
    · simp [S3Manager.create_bucket, h]
  · intro st
    exact ⟨(S3Manager.deleteLoop st.buckets st).1, rfl⟩
  · intro st h
    simp [S3Manager.list_buckets, h]
  · intro bn fp kp st hmem h
    have h1 := S3Manager.get_bucket_mem bn false none st hmem
    unfold S3Manager.create_bucket_object
    rw [h1]
    simp [h]
  · intro bn ok d v st hmem h
    have h1 := S3Manager.get_bucket_mem bn false none st hmem
    unfold S3Manager.get_bucket_object
    rw [h1]
    simp [h]
  · intro bn st hmem h
    have h1 := S3Manager.get_bucket_mem bn false none st hmem
    unfold S3Manager.enable_bucket_versioning
    rw [h1]
    simp [h]
  · intro bn kp st hmem h
    have h1 := S3Manager.get_bucket_mem bn false none st hmem
    unfold S3Manager.delete_bucket_objects
    rw [h1]
    simp [h]
  · intro n st hn hmem h
    have h1 := S3Manager.get_bucket_mem n false none st hmem
    have ht : truthyStr (some n) = some n := by simp [truthyStr, hn]
    unfold S3Manager.delete_buckets
    simp [ht, h1, h]

/-- C5, witness: every conjunct of the amended failure policy, applied at
concrete stores — the catching create call and catching loop, and each
propagating operation on the bucket `b1` in the store where every remote
call raises. -/
theorem S3Manager.provider_error_policy_witness :
    (S3Manager.create_bucket "b1" none S3Manager.s3StoreAllErr).1 = false ∧
    S3Manager.S3Event.logError "b1" ∈
      (S3Manager.create_bucket "b1" none S3Manager.s3StoreAllErr).2.2 ∧
    (∃ k, (S3Manager.delete_buckets none S3Manager.s3StoreDelErr).1 =
      Except.ok k) ∧
    (S3Manager.list_buckets S3Manager.s3StoreAllErr).1 =
      Except.error "ClientError" ∧
    (S3Manager.create_bucket_object "b1" "f.txt" none
      S3Manager.s3StoreAllErr).1 = Except.error "ClientError" ∧
    (S3Manager.get_bucket_object "b1" "k" none none
      S3Manager.s3StoreAllErr).1 = Except.error "ClientError" ∧
    (S3Manager.enable_bucket_versioning "b1" S3Manager.s3StoreAllErr).1 =
      Except.error "ClientError" ∧
    (S3Manager.delete_bucket_objects "b1" none S3Manager.s3StoreAllErr).1 =
      Except.error "ClientError" ∧
    (S3Manager.delete_buckets (some "b1") S3Manager.s3StoreAllErr).1 =
      Except.error "ClientError" := by
  obtain ⟨p1, p2, p3, p4, p5, p6, p7, p8⟩ := S3Manager.provider_error_policy
  refine ⟨?_, (p1 "b1" none S3Manager.s3StoreAllErr).2 rfl, p2 _, p3 _ rfl,
    p4 _ _ none _ (by decide) rfl, p5 _ _ none none _ (by decide) rfl,
    p6 _ _ (by decide) rfl, p7 _ none _ (by decide) rfl,
    p8 _ _ (by decide) (by decide) rfl⟩
  have := (p1 "b1" none S3Manager.s3StoreAllErr).1
  simpa using this

/-- C6, counterexample.  With the empty-string token — which is supplied and
non-`None` — `list_sns_topics` issues its remote call with *no* `NextToken`
pagination parameter at all (`params` is the empty dict, because the source
tests Python truthiness, not `None`-ness), so the token is not forwarded
verbatim. -/
theorem SnsManager.empty_token_not_forwarded :
    (SnsManager.list_sns_topics (some "") SnsManager.snsEnv0).2 =
      [SnsManager.SnsEvent.listTopicsCall none] ∧
    (some "" : Option String) ≠ none ∧
    SnsManager.SnsEvent.listTopicsCall none ≠
      SnsManager.SnsEvent.listTopicsCall (some "") :=
  ⟨rfl, by decide, by decide⟩

/-- C6, amended.  `list_sns_topics(next_token)` issues one `list_topics`
call and returns the pair of the response's topic list (empty when absent)
and the response's next token (or `None` when absent); the token is
forwarded verbatim as the `NextToken` pagination parameter exactly when it
is truthy — supplied and non-empty — and no pagination parameter is sent
when the token is `None` or the empty string. -/
theorem SnsManager.list_sns_topics_pagination (next_token : Option String)
    (env : SnsManager.SnsEnv) :
    (SnsManager.list_sns_topics next_token env).2 =
      [SnsManager.SnsEvent.listTopicsCall (truthyStr next_token)] ∧
    (SnsManager.list_sns_topics next_token env).1 =
      ((env.listTopicsResp (truthyStr next_token)).Topics.getD [],
       (env.listTopicsResp (truthyStr next_token)).NextToken) ∧
    (∀ s : String, next_token = some s → s ≠ "" →
      truthyStr next_token = some s) ∧
    ((next_token = none ∨ next_token = some "") →
      truthyStr next_token = none) := by
  refine ⟨rfl, rfl, ?_, ?_⟩
  · intro s hs hne
    subst hs
    simp [truthyStr, hne]
  · intro hc
    rcases hc with rfl | rfl <;> simp [truthyStr]

/-- C6, witness: a non-empty token `t` is forwarded verbatim, and a `None`
token sends no pagination parameter, in the concrete environment. -/
theorem SnsManager.list_sns_topics_pagination_witness :
    (SnsManager.list_sns_topics (some "t") SnsManager.snsEnv0).2 =
      [SnsManager.SnsEvent.listTopicsCall (some "t")] ∧
    (SnsManager.list_sns_topics none SnsManager.snsEnv0).2 =
      [SnsManager.SnsEvent.listTopicsCall none] ∧
    (SnsManager.list_sns_topics none SnsManager.snsEnv0).1 =
      (["arn1", "arn2"], some "tok1") := by
  have h1 := SnsManager.list_sns_topics_pagination (some "t") SnsManager.snsEnv0
  have h2 := SnsManager.list_sns_topics_pagination none SnsManager.snsEnv0
  refine ⟨?_, ?_, ?_⟩
  · rw [h1.1, h1.2.2.1 "t" rfl (by decide)]
  · rw [h2.1, h2.2.2.2 (Or.inl rfl)]
  · rw [h2.2.1, h2.2.2.2 (Or.inl rfl)]
    rfl

/-- C10.  The two notification-service list operations are total over
arbitrary response shapes: each returns a plain pair (no exception
component); when the response lacks the `Topics` / `Subscriptions` key the
returned list is empty, and when it lacks the `NextToken` key the returned
token is `None` — no key-lookup error is possible. -/
theorem SnsManager.list_ops_total_on_missing_keys (next_token : Option String)
    (env : SnsManager.SnsEnv) :
    ((env.listTopicsResp (truthyStr next_token)).Topics = none →
      (SnsManager.list_sns_topics next_token env).1.1 = []) ∧
    ((env.listTopicsResp (truthyStr next_token)).NextToken = none →
      (SnsManager.list_sns_topics next_token env).1.2 = none) ∧
    ((env.listSubsResp (truthyStr next_token)).Subscriptions = none →
      (SnsManager.list_sns_subscriptions next_token env).1.1 = []) ∧
    ((env.listSubsResp (truthyStr next_token)).NextToken = none →
      (SnsManager.list_sns_subscriptions next_token env).1.2 = none) := by
  refine ⟨?_, ?_, ?_, ?_⟩ <;> intro h <;>
    simp [SnsManager.list_sns_topics, SnsManager.list_sns_subscriptions, h]

/-- C10, witness: in the environment whose responses carry none of the keys,
both operations return the empty list and the `None` token. -/
theorem SnsManager.list_ops_total_on_missing_keys_witness :
    (SnsManager.list_sns_topics none SnsManager.snsEnvBare).1 = ([], none) ∧
    (SnsManager.list_sns_subscriptions none SnsManager.snsEnvBare).1 =
      ([], none) := by
  have h := SnsManager.list_ops_total_on_missing_keys none SnsManager.snsEnvBare
  refine ⟨?_, ?_⟩
  · have e1 := h.1 rfl
    have e2 := h.2.1 rfl
    exact Prod.ext e1 e2
  · have e3 := h.2.2.1 rfl
    have e4 := h.2.2.2 rfl
    exact Prod.ext e3 e4

/-- C7.  Each of the three log-storage operations issues exactly one remote
call (the trace always has length one) and, whenever the response carries
its result key (`logGroups`, `logStreams`, `events` respectively), returns
that raw result list unchanged — there is no continuation of multi-page
responses, since no further call ever appears in the trace. -/
theorem CwLogsManager.single_call_raw_results (env : CwLogsManager.CwEnv) :
    (∀ (gn rn : Option String),
      (CwLogsManager.list_log_groups gn rn env).2.length = 1 ∧
      ∀ gs, (env.describeLogGroups (truthyStr gn)).logGroups = some gs →
        (CwLogsManager.list_log_groups gn rn env).1 = Except.ok gs) ∧
    (∀ (g : String) (sn rn : Option String),
      (CwLogsManager.list_log_group_streams g sn rn env).2.length = 1 ∧
      ∀ ss, (env.describeLogStreams (truthyStr (some g))
          (truthyStr sn)).logStreams = some ss →
        (CwLogsManager.list_log_group_streams g sn rn env).1 =
          Except.ok ss) ∧
    (∀ (g pat : String) (ts te : Option Int) (rn : Option String),
      (CwLogsManager.filter_log_events g pat ts te rn env).2.length = 1 ∧
      ∀ es, (env.filterEvents g pat (CwLogsManager.truthyInt ts)
          (CwLogsManager.truthyInt te)).events = some es →
        (CwLogsManager.filter_log_events g pat ts te rn env).1 =
          Except.ok es) := by
  refine ⟨?_, ?_, ?_⟩
  · intro gn rn
    refine ⟨rfl, ?_⟩
    intro gs h
    simp [CwLogsManager.list_log_groups, h]
  · intro g sn rn
    refine ⟨rfl, ?_⟩
    intro ss h
    simp [CwLogsManager.list_log_group_streams, h]
  · intro g pat ts te rn
    refine ⟨rfl, ?_⟩
    intro es h
    simp [CwLogsManager.filter_log_events, h]

/-- C7, witness: the three operations in the concrete environment, each with
a one-call trace and the raw first-page list as result. -/
theorem CwLogsManager.single_call_raw_results_witness :
    (CwLogsManager.list_log_groups none none CwLogsManager.cwEnv0).2.length =
      1 ∧
    (CwLogsManager.list_log_groups none none CwLogsManager.cwEnv0).1 =
      Except.ok ["g1", "g2"] ∧
    (CwLogsManager.list_log_group_streams "grp" none none
      CwLogsManager.cwEnv0).1 = Except.ok ["s1"] ∧
    (CwLogsManager.filter_log_events "grp" "ERROR" none none none
      CwLogsManager.cwEnv0).1 = Except.ok ["e1", "e2", "e3"] := by
  have h := CwLogsManager.single_call_raw_results CwLogsManager.cwEnv0
  exact ⟨(h.1 none none).1, (h.1 none none).2 _ rfl,
    (h.2.1 "grp" none none).2 _ rfl,
    (h.2.2 "grp" "ERROR" none none none).2 _ rfl⟩
